import Mathlib

/-!
Verification of the task-manager backend: a shallow embedding of the user
model (models/User.js), the authentication routes (routes/auth.js, latest
revision), the task controller (controllers/tasks.js) and the Google OAuth
username generation (config/passport-setup.js), together with theorems
settling the specified properties.

Conventions of the embedding:
- The document store is a `List` of records; `findOne` is `List.find?`
  (Mongo natural order = insertion order), and saving an existing document
  replaces every stored record with the same id.
- Timestamps are milliseconds as `Nat`.
- bcrypt is opaque: a stored password is either `plain s` (set, not yet
  hashed by the pre-save hook) or `hashed s` (the bcrypt hash of `s`);
  `bcrypt.compare e h` succeeds exactly when `h` is the hash of `e`, and a
  bcrypt hash is a nonempty string.
- Randomness (crypto.randomBytes, Math.random) and external dispatch
  success (nodemailer / SMS provider) are explicit parameters.
- JS truthiness of an optional string field: absent or empty is falsy.
-/

namespace TaskManager

/-- A stored password value: `plain` before the pre-save hook hashes it,
`hashed` afterwards (bcrypt is opaque, so the hash of `s` is the marker
`hashed s`). -/
inductive PwVal where
  | plain (s : String)
  | hashed (s : String)
deriving DecidableEq, Repr

/-- A persisted user document (models/User.js schema fields). -/
structure User where
  uid : Nat
  username : String
  email : String
  password : Option PwVal := none
  phoneNumber : Option String := none
  profileImageUrl : Option String := none
  resetPasswordToken : Option String := none
  resetPasswordExpire : Option Nat := none
  verificationCode : Option String := none
  verificationCodeExpire : Option Nat := none
  googleId : Option String := none
deriving DecidableEq, Repr

/-- JS truthiness of an optional string field: absent, null or empty is falsy. -/
def strTruthy : Option String → Bool
  | none => false
  | some s => s != ""

/-- JS truthiness of the stored `password` field. A bcrypt hash is a
nonempty string, so a hashed value is always truthy. -/
def pwTruthy : Option PwVal → Bool
  | none => false
  | some (.plain s) => s != ""
  | some (.hashed _) => true

/-- Method `matchPassword` of the user schema: false when no password is stored
(`if (!this.password) return false`), otherwise `bcrypt.compare`, which
succeeds exactly when the stored value is the hash of the entered string
(a value that is not a bcrypt hash never compares equal). -/
def matchPassword (u : User) (entered : String) : Bool :=
  match u.password with
  | none => false
  | some (.plain _) => false
  | some (.hashed s) => entered == s

/-- The pre-save hook of the user schema: hash the password iff it was modified and is
truthy. The flows only ever assign plaintext to a modified password, so the
already-hashed case is left unchanged. -/
def preSaveHook (passwordModified : Bool) (u : User) : User :=
  if passwordModified && pwTruthy u.password then
    match u.password with
    | some (.plain s) => { u with password := some (.hashed s) }
    | _ => u
  else u

/-- The unanchored regex `.+@.+\..+` of the email validator: at least one
character, an at-sign, at least one character, a dot, at least one
character (regex `.` matches any character). -/
def emailFormatOk (s : String) : Bool :=
  let cs := s.toList
  (List.range cs.length).any fun i =>
    (List.range cs.length).any fun j =>
      decide (1 ≤ i) && decide (i + 2 ≤ j) && decide (j + 1 < cs.length) &&
      (cs.getD i ' ' == '@') && (cs.getD j ' ' == '.')

/-- Mongoose validation of a user document before the pre-save hook runs:
`username` minlength 3, `email` format, `password` minlength 6 when a
(plain) value is present — minlength skips absent values and a stored
bcrypt hash is long enough, but validates the empty string. -/
def userValid (u : User) : Bool :=
  decide (3 ≤ u.username.length) && emailFormatOk u.email &&
  (match u.password with
   | some (.plain s) => decide (6 ≤ s.length)
   | _ => true)

/-- Lookup `User.findOne` by email. -/
def findByEmail (db : List User) (e : String) : Option User :=
  db.find? fun u => u.email == e

/-- Lookup `User.findOne` by phone number. -/
def findByPhone (db : List User) (p : String) : Option User :=
  db.find? fun u => u.phoneNumber == some p

/-- Lookup `User.findById`. -/
def findById (db : List User) (i : Nat) : Option User :=
  db.find? fun u => u.uid == i

/-- Saving an existing document: replace the stored record with the same id. -/
def updateStore (db : List User) (u : User) : List User :=
  db.map fun v => if v.uid == u.uid then u else v

/-- Set all four reset-code fields to `undefined` (both channels cleared). -/
def clearResetFields (u : User) : User :=
  { u with resetPasswordToken := none, resetPasswordExpire := none,
           verificationCode := none, verificationCodeExpire := none }

/-- An HTTP response: status code and the `message` field of the JSON body. -/
structure HttpRes where
  status : Nat
  message : String
deriving DecidableEq, Repr

/-- Response plus the resulting store. -/
structure Outcome where
  res : HttpRes
  db : List User
deriving DecidableEq, Repr

def loginGoogleMsg : String :=
  "This account is linked to Google. Please sign in with Google."

def regGoogleMsg : String :=
  "This email is registered via Google. Please use \x27Sign in with Google\x27 or your existing password."

def emailConflictMsg : String := "User with that email already exists"

def usernameTakenMsg : String := "Username already taken"

def resetGoogleMsg : String :=
  "This account is linked to Google. You cannot reset its password this way. Please sign in with Google."

def changeGoogleMsg : String :=
  "This account is linked to Google and does not have a local password. Please sign in with Google."

def invalidResetMsg : String :=
  "Password reset token/code is invalid or has expired."

/-- Mongoose's joined validator messages are abstracted to one marker. -/
def validationErrMsg : String := "ValidationError"

/-- The creation path of `POST /api/auth/register` (after the conflict
checks): build the user, validate, hash via the pre-save hook, persist. -/
def registerCreate (db : List User) (freshId : Nat)
    (username email password : String) : Outcome :=
  let newUser : User :=
    { uid := freshId, username := username, email := email,
      password := some (.plain password) }
  if userValid newUser then
    ⟨⟨201, "Registration successful and logged in!"⟩,
     db ++ [preSaveHook true newUser]⟩
  else ⟨⟨400, validationErrMsg⟩, db⟩

/-- Handler of `POST /api/auth/register`: conflict lookup
`User.findOne({ $or: [{ email }, { username }] })`, then the email branch
(Google-only accounts get a distinct message), the username branch, else
creation. -/
def register (db : List User) (freshId : Nat)
    (username email password : String) : Outcome :=
  match db.find? (fun u => u.email == email || u.username == username) with
  | some userExists =>
    if userExists.email == email then
      if strTruthy userExists.googleId && !(pwTruthy userExists.password) then
        ⟨⟨400, regGoogleMsg⟩, db⟩
      else ⟨⟨400, emailConflictMsg⟩, db⟩
    else if userExists.username == username then
      ⟨⟨400, usernameTakenMsg⟩, db⟩
    else registerCreate db freshId username email password
  | none => registerCreate db freshId username email password

/-- Handler of `POST /api/auth/login`: lookup by email; absent user and hash mismatch
are the undifferentiated "Invalid credentials"; a falsy stored password
gets the Google message. The store is never modified. -/
def login (db : List User) (email password : String) : HttpRes :=
  match findByEmail db email with
  | none => ⟨400, "Invalid credentials"⟩
  | some user =>
    if !(pwTruthy user.password) then ⟨400, loginGoogleMsg⟩
    else if matchPassword user password then ⟨200, "Logged in successfully!"⟩
    else ⟨400, "Invalid credentials"⟩

/-- One hex digit (lower case, as Buffer.toString produces). -/
def hexDigit (n : Nat) : Char :=
  if n < 10 then Char.ofNat (48 + n) else Char.ofNat (87 + n)

/-- Two hex digits of one byte. -/
def hexByte (b : Fin 256) : String :=
  String.mk [hexDigit (b.val / 16), hexDigit (b.val % 16)]

/-- Hex encoding `crypto.randomBytes(n).toString` applied to the drawn bytes. -/
def hexEncode : List (Fin 256) → String
  | [] => ""
  | b :: bs => hexByte b ++ hexEncode bs

/-- The SMS code `Math.floor(100000 + Math.random() * 900000).toString()` on the drawn
randomness: a 6-digit numeric code in [100000, 999999]. -/
def smsCodeOf (r : Fin 900000) : String :=
  Nat.repr (100000 + r.val)

/-- Result of a forgot-password request: response, resulting store, and
whether a provider send (nodemailer / SMS) was attempted. -/
structure ForgotResult where
  res : HttpRes
  db : List User
  dispatched : Bool
deriving DecidableEq, Repr

/-- The enumeration-resistant generic response text. -/
def genericSentMsg (method : String) : String :=
  "If an account with that " ++ method ++ " exists, a password reset " ++
    (if method == "email" then "link" else "code") ++ " has been sent."

/-- The catch-block fallback 500 text (the error-shape specific variants
of the catch block depend on provider error objects and are collapsed to
this fallback). -/
def sendFailMsg (method : String) : String :=
  "Failed to send reset " ++ (if method == "email" then "email" else "SMS") ++
    ". Server error."

/-- The `$gt: Date.now()` check on an optional expiry. -/
def matchExpire (e : Option Nat) (now : Nat) : Bool :=
  match e with
  | some t => decide (now < t)
  | none => false

/-- The found-user part of `POST /api/auth/forgot-password`: Google-only
rejection, clearing of both channels' prior state, channel-specific code
generation and persistence. On a dispatch failure the catch block clears
the issued code and saves before responding 500; the issuing save happens
only after a successful dispatch. The no-phone branch returns before any
save. -/
def forgotIssue (db : List User) (user : User) (method : String)
    (tokenBytes : List (Fin 256)) (smsRand : Fin 900000)
    (now : Nat) (dispatchOk : Bool) : ForgotResult :=
  if strTruthy user.googleId && !(pwTruthy user.password) then
    ⟨⟨400, loginGoogleMsg⟩, db, false⟩
  else
    let u0 := clearResetFields user
    if method == "email" then
      let hexResetToken := hexEncode tokenBytes
      let u1 := { u0 with resetPasswordToken := some hexResetToken,
                          resetPasswordExpire := some (now + 60 * 60 * 1000) }
      if dispatchOk then
        ⟨⟨200, "Reset link sent successfully to your email."⟩,
         updateStore db u1, true⟩
      else
        ⟨⟨500, sendFailMsg method⟩, updateStore db (clearResetFields u1), true⟩
    else if method == "sms" then
      let smsVerificationCode := smsCodeOf smsRand
      let u1 := { u0 with verificationCode := some smsVerificationCode,
                          verificationCodeExpire := some (now + 15 * 60 * 1000) }
      if !(strTruthy user.phoneNumber) then
        ⟨⟨400, "User has no phone number registered for SMS reset."⟩, db, false⟩
      else if dispatchOk then
        ⟨⟨200, "Reset code sent successfully to your phone number."⟩,
         updateStore db u1, true⟩
      else
        ⟨⟨500, sendFailMsg method⟩, updateStore db (clearResetFields u1), true⟩
    else ⟨⟨400, "Invalid reset method specified."⟩, db, false⟩

/-- Handler of `POST /api/auth/forgot-password`: channel dispatch on `method` and the
truthiness of the supplied contact, user lookup, generic enumeration-safe
answer when absent. -/
def forgotPassword (db : List User) (method : String)
    (email phoneNumber : Option String)
    (tokenBytes : List (Fin 256)) (smsRand : Fin 900000)
    (now : Nat) (dispatchOk : Bool) : ForgotResult :=
  if method == "email" && strTruthy email then
    match findByEmail db (email.getD "") with
    | none => ⟨⟨200, genericSentMsg method⟩, db, false⟩
    | some user => forgotIssue db user method tokenBytes smsRand now dispatchOk
  else if method == "sms" && strTruthy phoneNumber then
    match findByPhone db (phoneNumber.getD "") with
    | none => ⟨⟨200, genericSentMsg method⟩, db, false⟩
    | some user => forgotIssue db user method tokenBytes smsRand now dispatchOk
  else
    ⟨⟨400, "Email or phone number, and a valid method (email/sms) are required."⟩,
     db, false⟩

/-- The user lookup of `POST /api/auth/reset-password`: first by the
email-channel token with unexpired deadline, then by the SMS-channel code
with its own unexpired deadline. -/
def resetLookup (db : List User) (token : String) (now : Nat) : Option User :=
  match db.find? (fun v => v.resetPasswordToken == some token &&
                  matchExpire v.resetPasswordExpire now) with
  | some u => some u
  | none => db.find? fun v => v.verificationCode == some token &&
              matchExpire v.verificationCodeExpire now

/-- Handler of `POST /api/auth/reset-password`: lookup, Google-only rejection (which
clears any pending codes), then set the new password, clear both channels'
pairs and save (validation, then the hashing pre-save hook). -/
def resetPassword (db : List User) (token newPassword : String)
    (now : Nat) : Outcome :=
  match resetLookup db token now with
  | none => ⟨⟨400, invalidResetMsg⟩, db⟩
  | some user =>
    if strTruthy user.googleId && !(pwTruthy user.password) then
      ⟨⟨400, resetGoogleMsg⟩, updateStore db (clearResetFields user)⟩
    else
      let u1 := { clearResetFields user with password := some (.plain newPassword) }
      if userValid u1 then
        ⟨⟨200, "Password has been reset successfully."⟩,
         updateStore db (preSaveHook true u1)⟩
      else ⟨⟨400, validationErrMsg⟩, db⟩

/-- Handler of `PUT /api/auth/change-password`: identity from the request gate,
Google-only rejection, current-password verification, then set and save. -/
def changePassword (db : List User) (uid : Nat)
    (currentPassword newPassword : String) : Outcome :=
  match findById db uid with
  | none => ⟨⟨404, "User not found."⟩, db⟩
  | some user =>
    if strTruthy user.googleId && !(pwTruthy user.password) then
      ⟨⟨400, changeGoogleMsg⟩, db⟩
    else if !(matchPassword user currentPassword) then
      ⟨⟨400, "Current password is incorrect."⟩, db⟩
    else
      let u1 := { user with password := some (.plain newPassword) }
      if userValid u1 then
        ⟨⟨200, "Password changed successfully."⟩,
         updateStore db (preSaveHook true u1)⟩
      else ⟨⟨400, validationErrMsg⟩, db⟩

/-- A persisted task document. Field values are the strings of the request
body; a stored due date is the (opaquely parsed) supplied string, `none`
standing for null. -/
structure Task where
  tid : Nat
  user : Nat
  title : String
  description : Option String := none
  dueDate : Option String := none
  status : String := "pending"
  createdAt : Nat := 0
deriving DecidableEq, Repr

/-- Modelled from the spec: the Task schema (models/Task.js is not among
the sources) — title required (an empty string fails a required String
path), status enumerated pending | completed; other fields unvalidated. -/
def taskValid (t : Task) : Bool :=
  t.title != "" && (t.status == "pending" || t.status == "completed")

/-- Response plus the resulting task store. -/
structure TaskOutcome where
  res : HttpRes
  db : List Task
deriving DecidableEq, Repr

/-- Saving an existing task document: replace the stored record with the
same id. -/
def updateTasks (db : List Task) (t : Task) : List Task :=
  db.map fun x => if x.tid == t.tid then t else x

/-- The field application of `updateTask` (controllers/tasks.js): each
field is applied exactly when present in the body (`!== undefined`), so a
supplied falsy value is still applied; a supplied falsy dueDate is applied
as a clear (`dueDate ? new Date(dueDate) : null`). -/
def applyTaskUpdate (t : Task)
    (title description dueDate status : Option String) : Task :=
  let t1 := match title with
    | some v => { t with title := v }
    | none => t
  let t2 := match description with
    | some v => { t1 with description := some v }
    | none => t1
  let t3 := match dueDate with
    | some v => { t2 with dueDate := if v == "" then none else some v }
    | none => t2
  match status with
  | some v => { t3 with status := v }
  | none => t3

def taskNotFoundRes : HttpRes := ⟨404, "Task not found"⟩

def updateForbiddenRes : HttpRes := ⟨401, "Not authorized to update this task"⟩

def deleteForbiddenRes : HttpRes := ⟨401, "Not authorized to delete this task"⟩

/-- Handler of `PUT /api/tasks/:id` (controllers/tasks.js `updateTask`): findById,
404 when absent, 401 when the requester does not own the task, otherwise
apply the supplied fields and save. -/
def updateTask (db : List Task) (taskId reqUserId : Nat)
    (title description dueDate status : Option String) : TaskOutcome :=
  match db.find? (fun t => t.tid == taskId) with
  | none => ⟨taskNotFoundRes, db⟩
  | some task =>
    if task.user != reqUserId then ⟨updateForbiddenRes, db⟩
    else
      let t1 := applyTaskUpdate task title description dueDate status
      if taskValid t1 then
        ⟨⟨200, "Task updated successfully!"⟩, updateTasks db t1⟩
      else ⟨⟨400, validationErrMsg⟩, db⟩

/-- Handler of `DELETE /api/tasks/:id` (controllers/tasks.js `deleteTask`): findById,
404 when absent, 401 when not owned, otherwise `deleteOne({ _id })`. -/
def deleteTask (db : List Task) (taskId reqUserId : Nat) : TaskOutcome :=
  match db.find? (fun t => t.tid == taskId) with
  | none => ⟨taskNotFoundRes, db⟩
  | some task =>
    if task.user != reqUserId then ⟨deleteForbiddenRes, db⟩
    else ⟨⟨200, "Task removed successfully!"⟩,
          db.filter fun x => !(x.tid == taskId)⟩

/-- Whitespace removal `profile.displayName.replace` of the display name. -/
def stripSpaces (s : String) : String :=
  String.mk (s.toList.filter fun c => !c.isWhitespace)

/-- The base username of a new Google user: the display name without
whitespace, or `user<Date.now()>` when that is empty (falsy). -/
def deriveBase (displayName : String) (nowMs : Nat) : String :=
  let s := stripSpaces displayName
  if s == "" then "user" ++ Nat.repr nowMs else s

/-- The collision check `User.findOne` by username, as a Bool. -/
def usernameTaken (usernames : List String) (name : String) : Bool :=
  usernames.contains name

/-- The longest stored username (0 when none). -/
def maxNameLen (usernames : List String) : Nat :=
  usernames.foldr (fun s m => max s.length m) 0

/-- The suffix `crypto.randomBytes(2).toString` of the k-th draw: always four
hex characters. -/
def hex4 (x : Fin 65536) : String :=
  String.mk [hexDigit (x.val / 4096), hexDigit (x.val / 256 % 16),
             hexDigit (x.val / 16 % 16), hexDigit (x.val % 16)]

theorem length_hex4 (x : Fin 65536) : (hex4 x).length = 4 := rfl

theorem length_le_maxNameLen {usernames : List String} {n : String}
    (h : usernameTaken usernames n = true) : n.length ≤ maxNameLen usernames := by
  induction usernames with
  | nil => simp [usernameTaken] at h
  | cons s rest ih =>
    simp only [usernameTaken, List.contains_cons] at h
    have hm : maxNameLen (s :: rest) = max s.length (maxNameLen rest) := rfl
    rcases Bool.or_eq_true_iff.mp h with h1 | h2
    · have hns : n = s := by simpa using h1
      rw [hns, hm]
      exact Nat.le_max_left _ _
    · rw [hm]
      exact le_trans (ih h2) (Nat.le_max_right _ _)

/-- The username-collision loop of the GoogleStrategy verify callback:
while a user with the candidate name exists, append a fresh random
four-character hex suffix and re-check. Terminates because each appended
suffix strictly lengthens the candidate, and a candidate longer than every
stored username cannot collide. -/
def uniqueUsername (usernames : List String) (suffixes : Nat → Fin 65536)
    (k : Nat) (current : String) : String :=
  if h : usernameTaken usernames current = true then
    uniqueUsername usernames suffixes (k + 1) (current ++ hex4 (suffixes k))
  else current
termination_by maxNameLen usernames + 1 - current.length
decreasing_by
  have hle := length_le_maxNameLen h
  have hlen : (current ++ hex4 (suffixes k)).length = current.length + 4 := by
    rw [String.length_append, length_hex4]
  omega

/-- The username computed for a brand-new Google user (lines 50–64 of the
verify callback): the de-duplicated base derived from the display name. -/
def googleNewUsername (db : List User) (displayName : String)
    (nowMs : Nat) (suffixes : Nat → Fin 65536) : String :=
  uniqueUsername (db.map fun u => u.username) suffixes 0
    (deriveBase displayName nowMs)

/-- A hexadecimal character, as Buffer.toString("hex") produces. -/
def isHexChar (c : Char) : Bool :=
  ("0123456789abcdef".toList).contains c

/-- Every character of the string is a hex digit. -/
def isHexStr (s : String) : Bool :=
  s.data.all isHexChar

/-! ### Store helper lemmas -/

theorem mem_updateStore {x u : User} {db : List User}
    (h : x ∈ updateStore db u) : x = u ∨ (x ∈ db ∧ x.uid ≠ u.uid) := by
  simp only [updateStore, List.mem_map] at h
  obtain ⟨v, hv, hx⟩ := h
  by_cases hc : v.uid = u.uid
  · left
    simp only [hc, beq_self_eq_true, if_true] at hx
    exact hx.symm
  · right
    have : (v.uid == u.uid) = false := by simpa using hc
    rw [this] at hx
    simp only [Bool.false_eq_true, if_false] at hx
    exact hx ▸ ⟨hv, hc⟩

theorem find?_updateStore (db : List User) (u u1 : User) (p : User → Bool)
    (hmem : u ∈ db) (huid : u1.uid = u.uid)
    (hsame : ∀ v ∈ db, v.uid = u.uid → v = u)
    (hfalse : ∀ v ∈ db, v.uid ≠ u.uid → p v = false)
    (htrue : p u1 = true) :
    (updateStore db u1).find? p = some u1 := by
  induction db with
  | nil => cases hmem
  | cons w rest ih =>
    have hcons : updateStore (w :: rest) u1 =
        (if w.uid == u1.uid then u1 else w) :: updateStore rest u1 := rfl
    rw [hcons]
    by_cases hw : w.uid = u.uid
    · have hhead : (if w.uid == u1.uid then u1 else w) = u1 := by
        simp [huid, hw]
      rw [hhead, List.find?_cons_of_pos _ htrue]
    · have hhead : (if w.uid == u1.uid then u1 else w) = w := by
        simp [huid, hw]
      rw [hhead, List.find?_cons_of_neg]
      · apply ih
        · rcases List.mem_cons.mp hmem with h1 | h1
          · exact absurd (by rw [← h1] : w.uid = u.uid) hw
          · exact h1
        · intro v hv hvu
          exact hsame v (List.mem_cons_of_mem _ hv) hvu
        · intro v hv hvu
          exact hfalse v (List.mem_cons_of_mem _ hv) hvu
      · rw [hfalse w (List.mem_cons_self _ _) hw]
        simp

theorem find?_eq_none_of_forall {p : User → Bool} {db : List User}
    (h : ∀ x ∈ db, p x = false) : db.find? p = none := by
  rw [List.find?_eq_none]
  intro x hx
  rw [h x hx]
  simp

/-! ### C9: termination and uniqueness of the OAuth username loop -/

theorem uniqueUsername_not_taken (us : List String) (suf : Nat → Fin 65536) :
    ∀ m k cur, maxNameLen us + 1 - cur.length = m →
      usernameTaken us (uniqueUsername us suf k cur) = false := by
  intro m
  induction m using Nat.strong_induction_on with
  | _ m ih =>
    intro k cur hm
    rw [uniqueUsername]
    by_cases h : usernameTaken us cur = true
    · rw [dif_pos h]
      have hle := length_le_maxNameLen h
      have hlen : (cur ++ hex4 (suf k)).length = cur.length + 4 := by
        rw [String.length_append, length_hex4]
      exact ih (maxNameLen us + 1 - (cur ++ hex4 (suf k)).length)
        (by omega) (k + 1) _ rfl
    · rw [dif_neg h]
      exact eq_false_of_ne_true h

/-- C9: for every store, display name, clock value and stream of random
suffixes, the username-generation loop of the GoogleStrategy verify
callback terminates (it is a total function of the embedding, defined by
well-founded recursion on the candidate length against the longest stored
username) and its result collides with no existing username. -/
theorem googleNewUsername_unique (db : List User) (displayName : String)
    (nowMs : Nat) (suffixes : Nat → Fin 65536) :
    usernameTaken (db.map fun u => u.username)
      (googleNewUsername db displayName nowMs suffixes) = false :=
  uniqueUsername_not_taken _ suffixes _ 0 _ rfl

/-! ### C5: forgot-password on a non-existent identifier -/

/-- C5: a forgot-password request whose identifier matches no user (email
channel or SMS channel) answers 200 with the generic "sent if exists"
message, attempts no provider dispatch, and leaves the store unchanged. -/
theorem forgotPassword_absent_user (db : List User) (e p : String)
    (tokenBytes : List (Fin 256)) (smsRand : Fin 900000)
    (now : Nat) (dispatchOk : Bool)
    (he : e ≠ "") (he2 : findByEmail db e = none)
    (hp : p ≠ "") (hp2 : findByPhone db p = none) :
    forgotPassword db "email" (some e) none tokenBytes smsRand now dispatchOk =
      ⟨⟨200, genericSentMsg "email"⟩, db, false⟩ ∧
    forgotPassword db "sms" none (some p) tokenBytes smsRand now dispatchOk =
      ⟨⟨200, genericSentMsg "sms"⟩, db, false⟩ := by
  constructor
  · simp [forgotPassword, strTruthy, he, he2]
  · simp [forgotPassword, strTruthy, hp, hp2]

theorem forgotPassword_absent_user_witness :
    ("zoe@x.com" : String) ≠ "" ∧
    forgotPassword [] "email" (some "zoe@x.com") none [] ⟨0, by decide⟩ 0 true =
      ⟨⟨200, genericSentMsg "email"⟩, [], false⟩ := by
  refine ⟨by decide, ?_⟩
  exact (forgotPassword_absent_user [] "zoe@x.com" "+254700000000" [] ⟨0, by decide⟩
    0 true (by decide) rfl (by decide) rfl).1

/-! ### C2: task ownership -/

/-- C2: when a task exists and the requester is not its owner, update and
delete answer the Forbidden response (distinct from the NotFound response
of an absent id) and leave the store unchanged; the owner never receives
the Forbidden response. -/
theorem task_ownership_forbidden (db : List Task) (t : Task) (b : Nat)
    (title description dueDate status : Option String)
    (hfind : db.find? (fun x => x.tid == t.tid) = some t)
    (hb : t.user ≠ b) :
    updateTask db t.tid b title description dueDate status =
      ⟨updateForbiddenRes, db⟩ ∧
    deleteTask db t.tid b = ⟨deleteForbiddenRes, db⟩ ∧
    updateForbiddenRes ≠ taskNotFoundRes ∧
    deleteForbiddenRes ≠ taskNotFoundRes ∧
    (updateTask db t.tid t.user title description dueDate status).res ≠
      updateForbiddenRes ∧
    (deleteTask db t.tid t.user).res ≠ deleteForbiddenRes := by
  refine ⟨?_, ?_, by decide, by decide, ?_, ?_⟩
  · simp [updateTask, hfind, hb]
  · simp [deleteTask, hfind, hb]
  · by_cases hv : taskValid (applyTaskUpdate t title description dueDate status) = true
    · simp [updateTask, hfind, hv, updateForbiddenRes]
    · simp only [Bool.not_eq_true] at hv
      simp [updateTask, hfind, hv, updateForbiddenRes, validationErrMsg]
  · simp [deleteTask, hfind, deleteForbiddenRes]

theorem task_ownership_forbidden_witness :
    (([⟨1, 7, "T1", none, none, "pending", 0⟩] : List Task).find?
       (fun x => x.tid == (1 : Nat)) = some ⟨1, 7, "T1", none, none, "pending", 0⟩) ∧
    (7 : Nat) ≠ 8 ∧
    updateTask [⟨1, 7, "T1", none, none, "pending", 0⟩] 1 8 none none none none =
      ⟨updateForbiddenRes, [⟨1, 7, "T1", none, none, "pending", 0⟩]⟩ := by
  refine ⟨by decide, by decide, ?_⟩
  exact (task_ownership_forbidden [⟨1, 7, "T1", none, none, "pending", 0⟩]
    ⟨1, 7, "T1", none, none, "pending", 0⟩ 8 none none none none
    (by decide) (by decide)).1

/-! ### C7: update applies exactly the supplied fields -/

/-- C7: a valid update by the owner changes exactly the fields present in
the request body — a supplied falsy value (empty string) is still applied,
an empty dueDate as a clear — every unsupplied field keeps its prior
value, and every other stored task is unchanged. -/
theorem updateTask_applies_supplied (db : List Task) (t : Task)
    (title description dueDate status : Option String)
    (hfind : db.find? (fun x => x.tid == t.tid) = some t)
    (hvalid : taskValid (applyTaskUpdate t title description dueDate status) = true) :
    ∀ t1, t1 = applyTaskUpdate t title description dueDate status →
    updateTask db t.tid t.user title description dueDate status =
      ⟨⟨200, "Task updated successfully!"⟩, updateTasks db t1⟩ ∧
    (∀ v, title = some v → t1.title = v) ∧
    (∀ v, description = some v → t1.description = some v) ∧
    (∀ v, dueDate = some v → t1.dueDate = (if v == "" then none else some v)) ∧
    (∀ v, status = some v → t1.status = v) ∧
    (title = none → t1.title = t.title) ∧
    (description = none → t1.description = t.description) ∧
    (dueDate = none → t1.dueDate = t.dueDate) ∧
    (status = none → t1.status = t.status) ∧
    t1.tid = t.tid ∧ t1.user = t.user ∧ t1.createdAt = t.createdAt ∧
    (∀ x ∈ db, x.tid ≠ t.tid → x ∈ updateTasks db t1) := by
  intro t1 ht1
  subst ht1
  refine ⟨by simp [updateTask, hfind, hvalid], ?_, ?_, ?_, ?_, ?_, ?_, ?_, ?_,
    ?_, ?_, ?_, ?_⟩
  · intro v hv
    subst hv
    cases description <;> cases dueDate <;> cases status <;>
      simp [applyTaskUpdate]
  · intro v hv
    subst hv
    cases title <;> cases dueDate <;> cases status <;> simp [applyTaskUpdate]
  · intro v hv
    subst hv
    cases title <;> cases description <;> cases status <;>
      simp [applyTaskUpdate]
  · intro v hv
    subst hv
    cases title <;> cases description <;> cases dueDate <;>
      simp [applyTaskUpdate]
  · intro hv
    subst hv
    cases description <;> cases dueDate <;> cases status <;>
      simp [applyTaskUpdate]
  · intro hv
    subst hv
    cases title <;> cases dueDate <;> cases status <;> simp [applyTaskUpdate]
  · intro hv
    subst hv
    cases title <;> cases description <;> cases status <;>
      simp [applyTaskUpdate]
  · intro hv
    subst hv
    cases title <;> cases description <;> cases dueDate <;>
      simp [applyTaskUpdate]
  · cases title <;> cases description <;> cases dueDate <;> cases status <;>
      simp [applyTaskUpdate]
  · cases title <;> cases description <;> cases dueDate <;> cases status <;>
      simp [applyTaskUpdate]
  · cases title <;> cases description <;> cases dueDate <;> cases status <;>
      simp [applyTaskUpdate]
  · intro x hx hne
    have hb : (x.tid == (applyTaskUpdate t title description dueDate status).tid)
        = false := by
      have : (applyTaskUpdate t title description dueDate status).tid = t.tid := by
        cases title <;> cases description <;> cases dueDate <;> cases status <;>
          simp [applyTaskUpdate]
      rw [this]
      simpa using hne
    have : x ∈ updateTasks db (applyTaskUpdate t title description dueDate status) := by
      simp only [updateTasks, List.mem_map]
      exact ⟨x, hx, by rw [hb]; simp⟩
    exact this

theorem updateTask_applies_supplied_witness :
    taskValid (applyTaskUpdate ⟨1, 7, "T1", some "d", some "2024-01-01", "pending", 0⟩
      none (some "") (some "") (some "completed")) = true ∧
    (applyTaskUpdate ⟨1, 7, "T1", some "d", some "2024-01-01", "pending", 0⟩
      none (some "") (some "") (some "completed")).description = some "" ∧
    (applyTaskUpdate ⟨1, 7, "T1", some "d", some "2024-01-01", "pending", 0⟩
      none (some "") (some "") (some "completed")).dueDate = none ∧
    (applyTaskUpdate ⟨1, 7, "T1", some "d", some "2024-01-01", "pending", 0⟩
      none (some "") (some "") (some "completed")).title = "T1" ∧
    updateTask [⟨1, 7, "T1", some "d", some "2024-01-01", "pending", 0⟩] 1 7
      none (some "") (some "") (some "completed") =
      ⟨⟨200, "Task updated successfully!"⟩,
       [⟨1, 7, "T1", some "", none, "completed", 0⟩]⟩ := by
  have h := updateTask_applies_supplied
    [⟨1, 7, "T1", some "d", some "2024-01-01", "pending", 0⟩]
    ⟨1, 7, "T1", some "d", some "2024-01-01", "pending", 0⟩
    none (some "") (some "") (some "completed") (by decide) (by decide)
    (applyTaskUpdate ⟨1, 7, "T1", some "d", some "2024-01-01", "pending", 0⟩
      none (some "") (some "") (some "completed")) rfl
  refine ⟨by decide, ?_, ?_, ?_, ?_⟩
  · exact h.2.2.1 "" rfl
  · have := h.2.2.2.1 "" rfl
    simpa using this
  · exact h.2.2.2.2.2.1 rfl
  · have hmain := h.1
    simpa [updateTasks, applyTaskUpdate] using hmain

/-! ### C1: external-identity-only accounts reject all password operations -/

/-- C1: a user with a Google id and no truthy stored password is rejected
by password login (with the distinguishing external-sign-in message), by
change-password, and by reset-password (which clears any pending codes but
never sets a password): no password channel authenticates the account or
gives it a password while it is external-identity-only. -/
theorem google_only_rejects_password_ops (db : List User) (u : User)
    (pw cur npw : String)
    (hg : strTruthy u.googleId = true) (hp : pwTruthy u.password = false)
    (hemail : findByEmail db u.email = some u)
    (hid : findById db u.uid = some u) :
    login db u.email pw = ⟨400, loginGoogleMsg⟩ ∧
    changePassword db u.uid cur npw = ⟨⟨400, changeGoogleMsg⟩, db⟩ ∧
    (∀ tok now, resetLookup db tok now = some u →
      resetPassword db tok npw now =
        ⟨⟨400, resetGoogleMsg⟩, updateStore db (clearResetFields u)⟩ ∧
      (clearResetFields u).password = u.password ∧
      pwTruthy (clearResetFields u).password = false) := by
  refine ⟨?_, ?_, ?_⟩
  · simp [login, hemail, hp]
  · simp [changePassword, hid, hg, hp]
  · intro tok now hlook
    refine ⟨by simp [resetPassword, hlook, hg, hp], rfl, ?_⟩
    show pwTruthy u.password = false
    exact hp

theorem google_only_rejects_password_ops_witness :
    strTruthy (some "gid-1") = true ∧
    pwTruthy none = false ∧
    login [{ uid := 1, username := "guser", email := "g@x.com",
             resetPasswordToken := some "tok", resetPasswordExpire := some 1000,
             googleId := some "gid-1" }] "g@x.com" "whatever" =
      ⟨400, loginGoogleMsg⟩ ∧
    (resetPassword [{ uid := 1, username := "guser", email := "g@x.com",
                      resetPasswordToken := some "tok",
                      resetPasswordExpire := some 1000,
                      googleId := some "gid-1" }] "tok" "newpass123" 50).res =
      ⟨400, resetGoogleMsg⟩ := by
  have h := google_only_rejects_password_ops
    [{ uid := 1, username := "guser", email := "g@x.com",
       resetPasswordToken := some "tok", resetPasswordExpire := some 1000,
       googleId := some "gid-1" }]
    { uid := 1, username := "guser", email := "g@x.com",
      resetPasswordToken := some "tok", resetPasswordExpire := some 1000,
      googleId := some "gid-1" }
    "whatever" "cur" "newpass123" (by decide) (by decide) (by decide) (by decide)
  refine ⟨by decide, by decide, h.1, ?_⟩
  have hr := (h.2.2 "tok" 50 (by decide)).1
  rw [hr]

/-! ### C8: duplicate-email registration -/

/-- C8 as stated is false: when the attempted email collides with one
stored user and the attempted username with a different, earlier-stored
user, the single `$or` lookup returns the username-colliding user and the
response carries the username-conflict message, not an email-conflict
message (still 400, still no new user). -/
theorem register_dup_email_counterexample :
    (∃ v ∈ ([{ uid := 1, username := "bob", email := "bob@x.com",
               password := some (.hashed "secret1") },
             { uid := 2, username := "alice", email := "alice@x.com",
               password := some (.hashed "secret2") }] : List User),
       v.email = "alice@x.com") ∧
    register ([{ uid := 1, username := "bob", email := "bob@x.com",
                 password := some (.hashed "secret1") },
               { uid := 2, username := "alice", email := "alice@x.com",
                 password := some (.hashed "secret2") }] : List User)
        99 "bob" "alice@x.com" "secret99" =
      ⟨⟨400, usernameTakenMsg⟩,
       ([{ uid := 1, username := "bob", email := "bob@x.com",
           password := some (.hashed "secret1") },
         { uid := 2, username := "alice", email := "alice@x.com",
           password := some (.hashed "secret2") }] : List User)⟩ ∧
    usernameTakenMsg ≠ emailConflictMsg ∧ usernameTakenMsg ≠ regGoogleMsg := by
  refine ⟨⟨_, List.mem_cons_of_mem _ (List.mem_cons_self _ _), rfl⟩, ?_, by decide, by decide⟩
  decide

/-- C8 amended: a registration attempt whose email equals a persisted
user's email always answers 400 and creates no user; the message is the
email-conflict message (or the Google-specific one for external-identity-
only accounts) whenever the conflict lookup returns an email-matching
user, but when the lookup instead returns a user colliding only on the
attempted username, the username-conflict message is returned. -/
theorem register_dup_email_amended (db : List User) (freshId : Nat)
    (username email pw : String) (u : User)
    (hu : u ∈ db) (he : u.email = email) :
    (register db freshId username email pw).db = db ∧
    (register db freshId username email pw).res.status = 400 ∧
    ((register db freshId username email pw).res.message = regGoogleMsg ∨
     (register db freshId username email pw).res.message = emailConflictMsg ∨
     (register db freshId username email pw).res.message = usernameTakenMsg) ∧
    (∀ ex, db.find? (fun v => v.email == email || v.username == username) = some ex →
       ex.email = email →
       ((register db freshId username email pw).res.message = regGoogleMsg ∨
        (register db freshId username email pw).res.message = emailConflictMsg)) := by
  have hsome : (db.find? fun v => v.email == email || v.username == username).isSome := by
    rw [List.find?_isSome]
    exact ⟨u, hu, by simp [he]⟩
  obtain ⟨ex, hex⟩ := Option.isSome_iff_exists.mp hsome
  have hpred := List.find?_some hex
  by_cases hee : ex.email = email
  · by_cases hgo : (strTruthy ex.googleId && !(pwTruthy ex.password)) = true
    · refine ⟨?_, ?_, Or.inl ?_, fun ex2 hex2 hee2 => Or.inl ?_⟩ <;>
        simp [register, hex, hee, hgo]
    · have hgob := eq_false_of_ne_true hgo
      refine ⟨?_, ?_, Or.inr (Or.inl ?_), fun ex2 hex2 hee2 => Or.inr ?_⟩ <;>
        simp [register, hex, hee, hgob]
  · have hun : (ex.username == username) = true := by
      rcases Bool.or_eq_true_iff.mp hpred with h1 | h1
      · exact absurd (by simpa using h1) hee
      · exact h1
    have heeb : (ex.email == email) = false := by simpa using hee
    refine ⟨?_, ?_, Or.inr (Or.inr ?_), ?_⟩
    · simp [register, hex, heeb, hun]
    · simp [register, hex, heeb, hun]
    · simp [register, hex, heeb, hun]
    · intro ex2 hex2 hee2
      rw [hex] at hex2
      cases hex2
      exact absurd hee2 hee

theorem register_dup_email_amended_witness :
    (({ uid := 2, username := "alice", email := "alice@x.com",
        password := some (.hashed "secret2") } : User) ∈
      ([{ uid := 1, username := "bob", email := "bob@x.com",
          password := some (.hashed "secret1") },
        { uid := 2, username := "alice", email := "alice@x.com",
          password := some (.hashed "secret2") }] : List User)) ∧
    (register ([{ uid := 1, username := "bob", email := "bob@x.com",
                  password := some (.hashed "secret1") },
                { uid := 2, username := "alice", email := "alice@x.com",
                  password := some (.hashed "secret2") }] : List User)
        99 "bob" "alice@x.com" "secret99").res.status = 400 := by
  refine ⟨by decide, ?_⟩
  exact (register_dup_email_amended _ 99 "bob" "alice@x.com" "secret99"
    { uid := 2, username := "alice", email := "alice@x.com",
      password := some (.hashed "secret2") }
    (by decide) rfl).2.1

/-! ### C10: passwords are persisted hashed -/

/-- C10: the pre-save hook hashes every modified truthy password and
leaves a modified empty or absent password unhashed; consequently
register, reset-password and change-password always persist the hash of
the supplied plaintext, never the plaintext (a hashed value is distinct
from the plain value by construction). -/
theorem password_persisted_hashed (db : List User) (freshId uid : Nat)
    (username email pw tok npw cur : String) (now : Nat) (u : User)
    (hno : db.find? (fun v => v.email == email || v.username == username) = none)
    (hval : userValid { uid := freshId, username := username, email := email,
                        password := some (.plain pw) } = true)
    (hlook : resetLookup db tok now = some u)
    (hgo : (strTruthy u.googleId && !(pwTruthy u.password)) = false)
    (hval2 : userValid { clearResetFields u with
                           password := some (.plain npw) } = true)
    (hid : findById db uid = some u)
    (hmatch : matchPassword u cur = true)
    (hval3 : userValid { u with password := some (.plain npw) } = true) :
    (∀ x : User, ∀ s : String, s ≠ "" →
      (preSaveHook true { x with password := some (.plain s) }).password =
        some (.hashed s)) ∧
    (∀ x : User,
      (preSaveHook true { x with password := some (.plain "") }).password =
        some (.plain "")) ∧
    (∀ x : User,
      (preSaveHook true { x with password := none }).password = none) ∧
    (∀ s : String, (PwVal.hashed s) ≠ PwVal.plain s) ∧
    (register db freshId username email pw).db =
      db ++ [preSaveHook true { uid := freshId, username := username,
                                email := email, password := some (.plain pw) }] ∧
    (preSaveHook true { uid := freshId, username := username, email := email,
                        password := some (.plain pw) }).password =
      some (.hashed pw) ∧
    resetPassword db tok npw now =
      ⟨⟨200, "Password has been reset successfully."⟩,
       updateStore db (preSaveHook true { clearResetFields u with
                                            password := some (.plain npw) })⟩ ∧
    (preSaveHook true { clearResetFields u with
                          password := some (.plain npw) }).password =
      some (.hashed npw) ∧
    changePassword db uid cur npw =
      ⟨⟨200, "Password changed successfully."⟩,
       updateStore db (preSaveHook true { u with
                                            password := some (.plain npw) })⟩ ∧
    (preSaveHook true { u with password := some (.plain npw) }).password =
      some (.hashed npw) := by
  have hpw6 : 6 ≤ pw.length := by
    have h3 := (Bool.and_eq_true _ _).mp hval
    simpa using h3.2
  have hpwne : pw ≠ "" := by
    intro hh
    rw [hh] at hpw6
    simp at hpw6
  have hnp6 : 6 ≤ npw.length := by
    have h3 := (Bool.and_eq_true _ _).mp hval2
    simpa using h3.2
  have hnpne : npw ≠ "" := by
    intro hh
    rw [hh] at hnp6
    simp at hnp6
  refine ⟨?_, ?_, ?_, ?_, ?_, ?_, ?_, ?_, ?_, ?_⟩
  · intro x s hs
    simp [preSaveHook, pwTruthy, hs]
  · intro x
    simp [preSaveHook, pwTruthy]
  · intro x
    simp [preSaveHook, pwTruthy]
  · intro s
    simp
  · simp [register, hno, registerCreate, hval]
  · simp [preSaveHook, pwTruthy, hpwne]
  · simp [resetPassword, hlook, hgo, hval2]
  · simp [preSaveHook, pwTruthy, hnpne]
  · simp [changePassword, hid, hgo, hmatch, hval3]
  · simp [preSaveHook, pwTruthy, hnpne]

theorem password_persisted_hashed_witness :
    matchPassword { uid := 1, username := "alice", email := "alice@x.com",
                    password := some (.hashed "secret1"),
                    resetPasswordToken := some "tok",
                    resetPasswordExpire := some 1000 } "secret1" = true ∧
    (preSaveHook true { uid := 9, username := "bobby", email := "bob@x.com",
                        password := some (.plain "secret99") }).password =
      some (.hashed "secret99") := by
  refine ⟨by decide, ?_⟩
  have h := password_persisted_hashed
    [{ uid := 1, username := "alice", email := "alice@x.com",
       password := some (.hashed "secret1"),
       resetPasswordToken := some "tok", resetPasswordExpire := some 1000 }]
    9 1 "bobby" "bob@x.com" "secret99" "tok" "newpass123" "secret1" 50
    { uid := 1, username := "alice", email := "alice@x.com",
      password := some (.hashed "secret1"),
      resetPasswordToken := some "tok", resetPasswordExpire := some 1000 }
    (by decide) (by decide) (by decide) (by decide) (by decide) (by decide)
    (by decide) (by decide)
  exact h.1 { uid := 9, username := "bobby", email := "bob@x.com" }
    "secret99" (by decide)

/-! ### C6: channel-specific issuance -/

theorem isHexChar_hexDigit (n : Nat) (h : n < 16) : isHexChar (hexDigit n) = true := by
  interval_cases n <;> decide

theorem isHexStr_hexByte (b : Fin 256) : isHexStr (hexByte b) = true := by
  have h1 : b.val / 16 < 16 := by omega
  have h2 : b.val % 16 < 16 := Nat.mod_lt _ (by omega)
  simp [isHexStr, hexByte, isHexChar_hexDigit _ h1, isHexChar_hexDigit _ h2]

theorem isHexStr_append {s t : String} (hs : isHexStr s = true)
    (ht : isHexStr t = true) : isHexStr (s ++ t) = true := by
  simp only [isHexStr, String.data_append, List.all_append]
  simp only [isHexStr] at hs ht
  rw [hs, ht]
  rfl

theorem isHexStr_hexEncode (bs : List (Fin 256)) :
    isHexStr (hexEncode bs) = true := by
  induction bs with
  | nil => rfl
  | cons b rest ih =>
    exact isHexStr_append (isHexStr_hexByte b) ih

theorem length_hexEncode (bs : List (Fin 256)) :
    (hexEncode bs).length = 2 * bs.length := by
  induction bs with
  | nil => rfl
  | cons b rest ih =>
    show (hexByte b ++ hexEncode rest).length = 2 * (rest.length + 1)
    rw [String.length_append, ih]
    have : (hexByte b).length = 2 := rfl
    rw [this]
    ring

/-- C6: a forgot-password request that reaches issuance stores a
channel-specific code — the email channel a hex token (the hex encoding of
the drawn bytes, two hex characters per byte) with a one-hour expiry, the
SMS channel a numeric code in [100000, 999999] with a fifteen-minute
expiry — and the user is stored with the other channel's code/expiry pair
cleared, so at most one channel's code is live. -/
theorem forgot_issuance_channel_specific (db : List User) (u : User)
    (e p : String) (tokenBytes : List (Fin 256)) (smsRand : Fin 900000)
    (now : Nat)
    (he : e ≠ "") (hfe : findByEmail db e = some u)
    (hp : p ≠ "") (hfp : findByPhone db p = some u)
    (hgo : (strTruthy u.googleId && !(pwTruthy u.password)) = false) :
    (∀ u1, u1 = { clearResetFields u with
                    resetPasswordToken := some (hexEncode tokenBytes),
                    resetPasswordExpire := some (now + 60 * 60 * 1000) } →
      forgotPassword db "email" (some e) none tokenBytes smsRand now true =
        ⟨⟨200, "Reset link sent successfully to your email."⟩,
         updateStore db u1, true⟩ ∧
      u1.resetPasswordToken = some (hexEncode tokenBytes) ∧
      isHexStr (hexEncode tokenBytes) = true ∧
      (hexEncode tokenBytes).length = 2 * tokenBytes.length ∧
      u1.resetPasswordExpire = some (now + 60 * 60 * 1000) ∧
      u1.verificationCode = none ∧ u1.verificationCodeExpire = none) ∧
    (∀ u2, u2 = { clearResetFields u with
                    verificationCode := some (smsCodeOf smsRand),
                    verificationCodeExpire := some (now + 15 * 60 * 1000) } →
      forgotPassword db "sms" none (some p) tokenBytes smsRand now true =
        ⟨⟨200, "Reset code sent successfully to your phone number."⟩,
         updateStore db u2, true⟩ ∧
      u2.verificationCode = some (Nat.repr (100000 + smsRand.val)) ∧
      100000 ≤ 100000 + smsRand.val ∧ 100000 + smsRand.val ≤ 999999 ∧
      u2.verificationCodeExpire = some (now + 15 * 60 * 1000) ∧
      u2.resetPasswordToken = none ∧ u2.resetPasswordExpire = none) := by
  have hphone : strTruthy u.phoneNumber = true := by
    have hq := List.find?_some hfp
    have hup : u.phoneNumber = some p := by simpa using hq
    rw [hup]
    simp [strTruthy, hp]
  have hse : strTruthy (some e) = true := by simp [strTruthy, he]
  have hsp : strTruthy (some p) = true := by simp [strTruthy, hp]
  constructor
  · intro u1 hu1
    subst hu1
    refine ⟨?_, rfl, isHexStr_hexEncode tokenBytes, length_hexEncode tokenBytes,
      rfl, rfl, rfl⟩
    simp [forgotPassword, hse, hfe, forgotIssue, hgo]
  · intro u2 hu2
    subst hu2
    have hsr : smsRand.val < 900000 := smsRand.isLt
    refine ⟨?_, rfl, by omega, by omega, rfl, rfl, rfl⟩
    simp [forgotPassword, hsp, hfp, forgotIssue, hgo, hphone, smsCodeOf]

theorem forgot_issuance_channel_specific_witness :
    (findByEmail [{ uid := 1, username := "alice", email := "alice@x.com",
                    password := some (.hashed "secret1"),
                    phoneNumber := some "+254700000001" }] "alice@x.com" =
      some { uid := 1, username := "alice", email := "alice@x.com",
             password := some (.hashed "secret1"),
             phoneNumber := some "+254700000001" }) ∧
    (forgotPassword [{ uid := 1, username := "alice", email := "alice@x.com",
                       password := some (.hashed "secret1"),
                       phoneNumber := some "+254700000001" }]
        "email" (some "alice@x.com") none [⟨171, by omega⟩, ⟨205, by omega⟩]
        ⟨123456, by omega⟩ 0 true).res =
      ⟨200, "Reset link sent successfully to your email."⟩ := by
  have h := (forgot_issuance_channel_specific
    [{ uid := 1, username := "alice", email := "alice@x.com",
       password := some (.hashed "secret1"),
       phoneNumber := some "+254700000001" }]
    { uid := 1, username := "alice", email := "alice@x.com",
      password := some (.hashed "secret1"),
      phoneNumber := some "+254700000001" }
    "alice@x.com" "+254700000001" [⟨171, by omega⟩, ⟨205, by omega⟩]
    ⟨123456, by omega⟩ 0 (by decide) (by decide) (by decide) (by decide)
    (by decide)).1 _ rfl
  refine ⟨by decide, ?_⟩
  rw [h.1]

/-! ### C4: a failed dispatch leaves no live reset code -/

theorem resetLookup_none_of_fresh (db2 : List User) (tok : String)
    (h : ∀ x ∈ db2, x.resetPasswordToken ≠ some tok ∧
         x.verificationCode ≠ some tok) :
    ∀ now2, resetLookup db2 tok now2 = none := by
  intro now2
  have h1 : db2.find? (fun v => v.resetPasswordToken == some tok &&
      matchExpire v.resetPasswordExpire now2) = none := by
    apply find?_eq_none_of_forall
    intro x hx
    have hb : (x.resetPasswordToken == some tok) = false := by
      simpa using (h x hx).1
    simp [hb]
  have h2 : db2.find? (fun v => v.verificationCode == some tok &&
      matchExpire v.verificationCodeExpire now2) = none := by
    apply find?_eq_none_of_forall
    intro x hx
    have hb : (x.verificationCode == some tok) = false := by
      simpa using (h x hx).2
    simp [hb]
  simp [resetLookup, h1, h2]

theorem fresh_updateStore {db : List User} {uc : User} {tok : String}
    (hucT : uc.resetPasswordToken ≠ some tok)
    (hucC : uc.verificationCode ≠ some tok)
    (h : ∀ v ∈ db, v.resetPasswordToken ≠ some tok ∧
         v.verificationCode ≠ some tok) :
    ∀ x ∈ updateStore db uc, x.resetPasswordToken ≠ some tok ∧
      x.verificationCode ≠ some tok := by
  intro x hx
  rcases mem_updateStore hx with h1 | ⟨h1, _⟩
  · subst h1
    exact ⟨hucT, hucC⟩
  · exact h x h1

/-- C4: when the provider dispatch of a forgot-password request fails, the
handler's catch block persists the user with all four code fields cleared
before responding 500, so the store holds no live reset code afterwards:
any reset-password attempt with the code issued in that request is
rejected as invalid/expired (for both channels). -/
theorem forgot_dispatch_failure_clears (db : List User) (u : User)
    (e p : String) (tokenBytes : List (Fin 256)) (smsRand : Fin 900000)
    (now : Nat)
    (he : e ≠ "") (hfe : findByEmail db e = some u)
    (hp : p ≠ "") (hfp : findByPhone db p = some u)
    (hgo : (strTruthy u.googleId && !(pwTruthy u.password)) = false)
    (hfreshE : ∀ v ∈ db, v.resetPasswordToken ≠ some (hexEncode tokenBytes) ∧
               v.verificationCode ≠ some (hexEncode tokenBytes))
    (hfreshS : ∀ v ∈ db, v.resetPasswordToken ≠ some (smsCodeOf smsRand) ∧
               v.verificationCode ≠ some (smsCodeOf smsRand)) :
    (∀ uc, uc = clearResetFields { clearResetFields u with
                   resetPasswordToken := some (hexEncode tokenBytes),
                   resetPasswordExpire := some (now + 60 * 60 * 1000) } →
      forgotPassword db "email" (some e) none tokenBytes smsRand now false =
        ⟨⟨500, sendFailMsg "email"⟩, updateStore db uc, true⟩ ∧
      uc.resetPasswordToken = none ∧ uc.resetPasswordExpire = none ∧
      uc.verificationCode = none ∧ uc.verificationCodeExpire = none ∧
      (∀ npw t2, resetPassword (updateStore db uc) (hexEncode tokenBytes) npw t2 =
        ⟨⟨400, invalidResetMsg⟩, updateStore db uc⟩)) ∧
    (∀ uc, uc = clearResetFields { clearResetFields u with
                   verificationCode := some (smsCodeOf smsRand),
                   verificationCodeExpire := some (now + 15 * 60 * 1000) } →
      forgotPassword db "sms" none (some p) tokenBytes smsRand now false =
        ⟨⟨500, sendFailMsg "sms"⟩, updateStore db uc, true⟩ ∧
      uc.resetPasswordToken = none ∧ uc.resetPasswordExpire = none ∧
      uc.verificationCode = none ∧ uc.verificationCodeExpire = none ∧
      (∀ npw t2, resetPassword (updateStore db uc) (smsCodeOf smsRand) npw t2 =
        ⟨⟨400, invalidResetMsg⟩, updateStore db uc⟩)) := by
  have hphone : strTruthy u.phoneNumber = true := by
    have hq := List.find?_some hfp
    have hup : u.phoneNumber = some p := by simpa using hq
    rw [hup]
    simp [strTruthy, hp]
  have hse : strTruthy (some e) = true := by simp [strTruthy, he]
  have hsp : strTruthy (some p) = true := by simp [strTruthy, hp]
  constructor
  · intro uc huc
    have hucT : uc.resetPasswordToken = none := by
      rw [huc]
      simp [clearResetFields]
    have hucC : uc.verificationCode = none := by
      rw [huc]
      simp [clearResetFields]
    have hucTE : uc.resetPasswordExpire = none := by
      rw [huc]
      simp [clearResetFields]
    have hucCE : uc.verificationCodeExpire = none := by
      rw [huc]
      simp [clearResetFields]
    refine ⟨?_, hucT, hucTE, hucC, hucCE, ?_⟩
    · rw [huc]
      simp [forgotPassword, hse, hfe, forgotIssue, hgo]
    · intro npw t2
      have hall := fresh_updateStore (by rw [hucT]; simp) (by rw [hucC]; simp)
        hfreshE
      have hlk := resetLookup_none_of_fresh _ _ hall t2
      simp [resetPassword, hlk]
  · intro uc huc
    have hucT : uc.resetPasswordToken = none := by
      rw [huc]
      simp [clearResetFields]
    have hucC : uc.verificationCode = none := by
      rw [huc]
      simp [clearResetFields]
    have hucTE : uc.resetPasswordExpire = none := by
      rw [huc]
      simp [clearResetFields]
    have hucCE : uc.verificationCodeExpire = none := by
      rw [huc]
      simp [clearResetFields]
    refine ⟨?_, hucT, hucTE, hucC, hucCE, ?_⟩
    · rw [huc]
      simp [forgotPassword, hsp, hfp, forgotIssue, hgo, hphone]
    · intro npw t2
      have hall := fresh_updateStore (by rw [hucT]; simp) (by rw [hucC]; simp)
        hfreshS
      have hlk := resetLookup_none_of_fresh _ _ hall t2
      simp [resetPassword, hlk]

theorem forgot_dispatch_failure_clears_witness :
    (findByEmail [{ uid := 1, username := "alice", email := "alice@x.com",
                    password := some (.hashed "secret1"),
                    phoneNumber := some "+254700000001" }] "alice@x.com" =
      some { uid := 1, username := "alice", email := "alice@x.com",
             password := some (.hashed "secret1"),
             phoneNumber := some "+254700000001" }) ∧
    (forgotPassword [{ uid := 1, username := "alice", email := "alice@x.com",
                       password := some (.hashed "secret1"),
                       phoneNumber := some "+254700000001" }]
        "email" (some "alice@x.com") none [⟨171, by omega⟩, ⟨205, by omega⟩]
        ⟨123456, by omega⟩ 0 false).res.status = 500 := by
  have h := (forgot_dispatch_failure_clears
    [{ uid := 1, username := "alice", email := "alice@x.com",
       password := some (.hashed "secret1"),
       phoneNumber := some "+254700000001" }]
    { uid := 1, username := "alice", email := "alice@x.com",
      password := some (.hashed "secret1"),
      phoneNumber := some "+254700000001" }
    "alice@x.com" "+254700000001" [⟨171, by omega⟩, ⟨205, by omega⟩]
    ⟨123456, by omega⟩ 0 (by decide) (by decide) (by decide) (by decide)
    (by decide) (by decide) (by decide)).1 _ rfl
  refine ⟨by decide, ?_⟩
  rw [h.1]

/-! ### C3: email reset round-trip -/

theorem emailFormatOk_ne_empty {s : String} (h : emailFormatOk s = true) :
    s ≠ "" := by
  intro hs
  subst hs
  exact absurd h (by decide)

/-- C3: a user with a truthy password who requests an email reset code and
then calls reset-password with that exact code before its expiry succeeds
(the stored password becomes the hash of the new password) and both
channels' code/expiry pairs are cleared by the successful reset; a second
reset-password call with the same code is rejected as invalid/expired. -/
theorem email_reset_roundtrip (db : List User) (u : User)
    (tokenBytes : List (Fin 256)) (smsRand : Fin 900000)
    (now tReset tReuse : Nat) (npw : String)
    (hfe : findByEmail db u.email = some u)
    (hpw : pwTruthy u.password = true)
    (hemailok : emailFormatOk u.email = true)
    (hun : 3 ≤ u.username.length)
    (hnp : 6 ≤ npw.length)
    (hexp : tReset < now + 60 * 60 * 1000)
    (huniq : ∀ v ∈ db, v.uid = u.uid → v = u)
    (hfresh : ∀ v ∈ db, v.resetPasswordToken ≠ some (hexEncode tokenBytes) ∧
              v.verificationCode ≠ some (hexEncode tokenBytes)) :
    ∀ u1, u1 = { clearResetFields u with
                   resetPasswordToken := some (hexEncode tokenBytes),
                   resetPasswordExpire := some (now + 60 * 60 * 1000) } →
    ∀ u2, u2 = preSaveHook true { clearResetFields u1 with
                                    password := some (.plain npw) } →
    forgotPassword db "email" (some u.email) none tokenBytes smsRand now true =
      ⟨⟨200, "Reset link sent successfully to your email."⟩,
       updateStore db u1, true⟩ ∧
    resetPassword (updateStore db u1) (hexEncode tokenBytes) npw tReset =
      ⟨⟨200, "Password has been reset successfully."⟩,
       updateStore (updateStore db u1) u2⟩ ∧
    u2.password = some (.hashed npw) ∧
    u2.resetPasswordToken = none ∧ u2.resetPasswordExpire = none ∧
    u2.verificationCode = none ∧ u2.verificationCodeExpire = none ∧
    resetPassword (updateStore (updateStore db u1) u2) (hexEncode tokenBytes)
        npw tReuse =
      ⟨⟨400, invalidResetMsg⟩, updateStore (updateStore db u1) u2⟩ := by
  intro u1 hu1 u2 hu2
  have hne : u.email ≠ "" := emailFormatOk_ne_empty hemailok
  have hse : strTruthy (some u.email) = true := by simp [strTruthy, hne]
  have humem : u ∈ db := List.mem_of_find?_eq_some hfe
  have hgo : (strTruthy u.googleId && !(pwTruthy u.password)) = false := by
    rw [hpw]
    simp
  have hnpne : npw ≠ "" := by
    intro hh
    rw [hh] at hnp
    simp at hnp
  have hu1id : u1.uid = u.uid := by
    rw [hu1]
    simp [clearResetFields]
  have hu1pw : u1.password = u.password := by
    rw [hu1]
    simp [clearResetFields]
  have hu1tok : u1.resetPasswordToken = some (hexEncode tokenBytes) := by
    rw [hu1]
  have hu1exp : u1.resetPasswordExpire = some (now + 60 * 60 * 1000) := by
    rw [hu1]
  have hu1un : u1.username = u.username := by
    rw [hu1]
    simp [clearResetFields]
  have hu1em : u1.email = u.email := by
    rw [hu1]
    simp [clearResetFields]
  have hu1gi : u1.googleId = u.googleId := by
    rw [hu1]
    simp [clearResetFields]
  have hu2pw : u2.password = some (.hashed npw) := by
    rw [hu2]
    simp [preSaveHook, pwTruthy, hnpne]
  have hu2tok : u2.resetPasswordToken = none := by
    rw [hu2]
    simp [preSaveHook, pwTruthy, hnpne, clearResetFields]
  have hu2exp : u2.resetPasswordExpire = none := by
    rw [hu2]
    simp [preSaveHook, pwTruthy, hnpne, clearResetFields]
  have hu2vc : u2.verificationCode = none := by
    rw [hu2]
    simp [preSaveHook, pwTruthy, hnpne, clearResetFields]
  have hu2vce : u2.verificationCodeExpire = none := by
    rw [hu2]
    simp [preSaveHook, pwTruthy, hnpne, clearResetFields]
  have hu2id : u2.uid = u.uid := by
    rw [hu2, ← hu1id]
    simp [preSaveHook, pwTruthy, hnpne, clearResetFields]
  -- first reset lookup in the post-issuance store finds the issued user
  have hlk1 : (updateStore db u1).find?
      (fun v => v.resetPasswordToken == some (hexEncode tokenBytes) &&
                matchExpire v.resetPasswordExpire tReset) = some u1 := by
    apply find?_updateStore db u u1 _ humem hu1id huniq
    · intro v hv hne2
      have hb : (v.resetPasswordToken == some (hexEncode tokenBytes)) = false := by
        simpa using (hfresh v hv).1
      simp [hb]
    · rw [hu1tok, hu1exp]
      simp [matchExpire, hexp]
  have hlk : resetLookup (updateStore db u1) (hexEncode tokenBytes) tReset =
      some u1 := by
    simp [resetLookup, hlk1]
  have hgo1 : (strTruthy u1.googleId && !(pwTruthy u1.password)) = false := by
    rw [hu1gi, hu1pw]
    exact hgo
  have hval2 : userValid { clearResetFields u1 with
                             password := some (.plain npw) } = true := by
    simp [userValid, clearResetFields, hu1un, hu1em, hun, hemailok, hnp]
  refine ⟨?_, ?_, hu2pw, hu2tok, hu2exp, hu2vc, hu2vce, ?_⟩
  · subst hu1
    simp [forgotPassword, hse, hfe, forgotIssue, hgo]
  · rw [hu2]
    simp [resetPassword, hlk, hgo1, hval2]
  · -- the consumed code matches nobody afterwards
    have hall : ∀ x ∈ updateStore (updateStore db u1) u2,
        x.resetPasswordToken ≠ some (hexEncode tokenBytes) ∧
        x.verificationCode ≠ some (hexEncode tokenBytes) := by
      intro x hx
      rcases mem_updateStore hx with h1 | ⟨h1, hne2⟩
      · subst h1
        rw [hu2tok, hu2vc]
        simp
      · rcases mem_updateStore h1 with h2 | ⟨h2, _⟩
        · exfalso
          apply hne2
          rw [h2, hu1id, hu2id]
        · exact hfresh x h2
    have hlk2 := resetLookup_none_of_fresh _ _ hall tReuse
    simp [resetPassword, hlk2]

theorem email_reset_roundtrip_witness :
    pwTruthy (some (.hashed "secret1")) = true ∧
    emailFormatOk "alice@x.com" = true ∧
    (forgotPassword [{ uid := 1, username := "alice", email := "alice@x.com",
                       password := some (.hashed "secret1") }]
        "email" (some "alice@x.com") none [(171 : Fin 256), 205]
        (0 : Fin 900000) 0 true).res.status = 200 ∧
    (resetPassword
        (forgotPassword [{ uid := 1, username := "alice", email := "alice@x.com",
                           password := some (.hashed "secret1") }]
          "email" (some "alice@x.com") none [(171 : Fin 256), 205]
          (0 : Fin 900000) 0 true).db
        (hexEncode [(171 : Fin 256), 205]) "newpass123" 10).res.status = 200 ∧
    (resetPassword
        (resetPassword
          (forgotPassword [{ uid := 1, username := "alice", email := "alice@x.com",
                             password := some (.hashed "secret1") }]
            "email" (some "alice@x.com") none [(171 : Fin 256), 205]
            (0 : Fin 900000) 0 true).db
          (hexEncode [(171 : Fin 256), 205]) "newpass123" 10).db
        (hexEncode [(171 : Fin 256), 205]) "newpass123" 20).res.status = 400 := by
  have h := email_reset_roundtrip
    [{ uid := 1, username := "alice", email := "alice@x.com",
       password := some (.hashed "secret1") }]
    { uid := 1, username := "alice", email := "alice@x.com",
      password := some (.hashed "secret1") }
    [(171 : Fin 256), 205] (0 : Fin 900000) 0 10 20 "newpass123"
    (by decide) (by decide) (by decide) (by decide) (by decide) (by decide)
    (by decide) (by decide) _ rfl _ rfl
  obtain ⟨h1, h2, _, _, _, _, _, h8⟩ := h
  refine ⟨by decide, by decide, ?_, ?_, ?_⟩
  · rw [h1]
  · rw [h1]
    dsimp only
    rw [h2]
  · rw [h1]
    dsimp only
    rw [h2]
    dsimp only
    rw [h8]

end TaskManager
